import Mathlib

/-!
Shallow embedding of the synthetic-history-and-forecast engine of
`src/app.py` (functions `generate_historical_data`, lines 101-118, and
`forecast_aqi`, lines 120-145, plus the confidence band drawn by the
charting code, lines 287-291 and 425-429), together with proofs of the
frozen claims about it.

Conventions of the embedding:
* Machine floats are modelled by exact reals.
* NumPy 1-D arrays are lists of reals; elementwise operations are `zipWith`
  and `map`.
* `datetime` values are reals measured in days; `timedelta(days=i)` is the
  real number `i`.
* Library behaviour that is a fixed deterministic function but whose values
  are irrelevant to every claim is a parameter of the embedding:
  `gauss s k` is the k-th variate of NumPy's seeded Gaussian stream after
  `np.random.seed s` (a fixed function of the seed in any NumPy build),
  `pyHash` is the `hash` built-in on strings of the running CPython process
  (salted per process since Python 3.3 unless PYTHONHASHSEED is pinned),
  and `clock k` is the value returned by the k-th call of `datetime.now()`
  inside the date list comprehension.
-/

namespace AQI

/-- Model of the state of the process-global NumPy legacy generator
`np.random`: the seed last installed by `np.random.seed` and the number of
variates drawn since.  `generate_historical_data` reseeds and draws from
this global object (src/app.py lines 103 and 109). -/
structure NPRandomState where
  seed : ℕ
  draws : ℕ
deriving DecidableEq

/-- Semantics of `np.random.seed s`: installs `s` and resets the draw position,
discarding the previous global state. -/
def npSeed (s : ℕ) (_st : NPRandomState) : NPRandomState := ⟨s, 0⟩

/-- Semantics of `np.random.normal(0, 15, n)` on the global generator: the next `n`
variates of the stream of the installed seed, and the advanced state.
`gauss s k` stands for the k-th N(0, 15^2) variate after seeding with `s`;
its concrete values are a fixed property of NumPy and are abstracted. -/
def npNormal (gauss : ℕ → ℕ → ℝ) (n : ℕ) (st : NPRandomState) :
    List ℝ × NPRandomState :=
  ((List.range n).map (fun k => gauss st.seed (st.draws + k)), ⟨st.seed, st.draws + n⟩)

/-- NumPy `np.linspace a b n` with the default endpoint=True: `n` points from `a`
to `b`.  For `n = 1` NumPy returns `[a]`, which the formula also yields
since real division by zero is zero. -/
noncomputable def linspace (a b : ℝ) (n : ℕ) : List ℝ :=
  (List.range n).map (fun i : ℕ => a + (b - a) * (i : ℝ) / ((n : ℝ) - 1))

/-- Computation `hash(city_data['city']) % 2**32` (src/app.py line 103).  `pyHash` is
the per-process string hash; Python's `%` with a positive modulus agrees
with `Int.emod`, whose result is non-negative here. -/
def seed_of_city (pyHash : String → ℤ) (city : String) : ℕ :=
  ((pyHash city) % 2 ^ 32).toNat

/-- The frame built by `generate_historical_data`
(`pd.DataFrame({'date': dates, 'pm2_5': pm25_history, 'city': ...})`,
lines 114-118).  The `day_num` field models the column that `forecast_aqi`
later assigns in place into this caller-owned frame (line 122); a freshly
built frame has `day_num = none`. -/
structure HistDF where
  date : List ℝ
  pm2_5 : List ℝ
  city : String
  day_num : Option (List ℕ)

/-- The pandas column list of a historical frame; `day_num` appears at the
end once `forecast_aqi` has assigned it. -/
def HistDF.columns (df : HistDF) : List String :=
  ["date", "pm2_5", "city"] ++
    (match df.day_num with
     | none => []
     | some _ => ["day_num"])

/-- The frame built by `forecast_aqi`
(`pd.DataFrame({'date': ..., 'pm2_5_forecast': ..., 'city': ...})`,
lines 139-143). -/
structure ForecastDF where
  date : List ℝ
  pm2_5_forecast : List ℝ
  city : String

/-- The pandas column list of a forecast frame, fixed by its constructor
at lines 139-143. -/
def ForecastDF.columns (_df : ForecastDF) : List String :=
  ["date", "pm2_5_forecast", "city"]

/-- Embedding of `generate_historical_data(city_data, days)` (src/app.py lines 101-118),
state-passing in the global generator.  `base` is `city_data['pm2_5']` and
`city` is `city_data['city']`.  The date list comprehension iterates
`i = days, days-1, ..., 1`, so its k-th element is `clock k - (days - k)`
days. -/
noncomputable def generate_historical_data (gauss : ℕ → ℕ → ℝ)
    (pyHash : String → ℤ) (clock : ℕ → ℝ) (city : String) (base : ℝ)
    (days : ℕ) (st : NPRandomState) : HistDF × NPRandomState :=
  let st1 := npSeed (seed_of_city pyHash city) st
  let dates := (List.range days).map (fun k => clock k - ((days - k : ℕ) : ℝ))
  let trend := linspace (base * 0.8) (base * 1.2) days
  let seasonal := (linspace 0 (4 * Real.pi) days).map (fun x => 20 * Real.sin x)
  let noiseSt := npNormal gauss days st1
  let pm25 := ((trend.zipWith (· + ·) seasonal).zipWith (· + ·) noiseSt.1).map
    (fun x => max x 10)
  ({ date := dates, pm2_5 := pm25, city := city, day_num := none }, noiseSt.2)

/-- Power sums `Σ_{i<D} i^k`: the entries of the Gram matrix of the
expanded feature set `[1, x, x²]` at sample indices `0..D-1`
(`PolynomialFeatures(degree=2)` on the `day_num` column). -/
noncomputable def S (D k : ℕ) : ℝ := ∑ i ∈ Finset.range D, (i : ℝ) ^ k

/-- Moments `Σ_{i<D} i^k · y_i` of the series against the index
(`D = y.length`); the right-hand sides of the least-squares normal
equations. -/
noncomputable def Tm (y : List ℝ) (k : ℕ) : ℝ :=
  ∑ i ∈ Finset.range y.length, (i : ℝ) ^ k * y.getD i 0

/-- Determinant of a 3×3 matrix given row-major. -/
def det3 (a b c d e f g h i : ℝ) : ℝ :=
  a * e * i - a * f * h - b * d * i + b * f * g + c * d * h - c * e * g

/-- Real-number semantics of lines 126-134 of src/app.py:
`PolynomialFeatures(degree=2)` expands the index column to `[1, x, x²]` and
`LinearRegression().fit` computes the ordinary least-squares fit of the
series against the indices `0..D-1`, with no regularization.  With at least
3 samples the least-squares degree-2 polynomial is unique and its
coefficients solve the normal equations, written here by Cramer's rule (the
redundant bias column plus intercept in scikit-learn changes only the
internal coefficient split, not the fitted polynomial or its predictions).
With fewer than 3 samples the Gram determinant vanishes and scikit-learn
falls back to a minimum-norm pseudoinverse solution, which this embedding
does not model; no claim depends on predicted values there. -/
noncomputable def polyfit2 (y : List ℝ) : ℝ × ℝ × ℝ :=
  let D := y.length
  let Δ := det3 (S D 0) (S D 1) (S D 2) (S D 1) (S D 2) (S D 3) (S D 2) (S D 3) (S D 4)
  (det3 (Tm y 0) (S D 1) (S D 2) (Tm y 1) (S D 2) (S D 3) (Tm y 2) (S D 3) (S D 4) / Δ,
   det3 (S D 0) (Tm y 0) (S D 2) (S D 1) (Tm y 1) (S D 3) (S D 2) (Tm y 2) (S D 4) / Δ,
   det3 (S D 0) (S D 1) (Tm y 0) (S D 1) (S D 2) (Tm y 1) (S D 2) (S D 3) (Tm y 2) / Δ)

/-- Evaluation of the fitted degree-2 polynomial. -/
noncomputable def evalPoly2 (β : ℝ × ℝ × ℝ) (x : ℝ) : ℝ :=
  β.1 + β.2.1 * x + β.2.2 * x ^ 2

/-- Lines 132-134: `model.predict` on
`future_days = [[len(historical_df) + i] for i in range(days_ahead)]` —
the raw (pre-floor) predictions at indices `D .. D+h-1`. -/
noncomputable def forecastRaw (y : List ℝ) (h : ℕ) : List ℝ :=
  (List.range h).map (fun i => evalPoly2 (polyfit2 y) ((y.length + i : ℕ) : ℝ))

/-- pandas `Series.max()` of a column (`historical_df['date'].max()`,
line 136); junk value 0 on an empty column, which no claim exercises. -/
noncomputable def dfMax : List ℝ → ℝ
  | [] => 0
  | a :: t => t.foldl max a

/-- The forecast frame built on the non-raising path of `forecast_aqi`
(lines 132-143): floored predictions at indices `D..D+h-1`, dates one per
day starting the day after the last historical date
(`historical_df['date'].max()`), and the city taken from
`historical_df['city'].iloc[0]`. -/
noncomputable def forecastFrame (df : HistDF) (days_ahead : ℕ) : ForecastDF :=
  { date := (List.range days_ahead).map (fun i : ℕ => dfMax df.date + ((i : ℝ) + 1)),
    pm2_5_forecast := (forecastRaw df.pm2_5 days_ahead).map (fun x => max x 10),
    city := df.city }

/-- Embedding of `forecast_aqi(historical_df, days_ahead)` (src/app.py lines 120-145).
The first output component is the historical frame as the caller sees it
after the call: line 122 assigns the `day_num` column `0..D-1` into it in
place, before anything can raise.  The second component is the returned
forecast frame, or the untyped ValueError that scikit-learn's array
validation raises on the two degenerate inputs: a 0-row history makes
`poly.fit_transform(X)` (line 127) raise on an array with 0 samples, and
`days_ahead = 0` (or negative, identical under `range`) makes `future_days`
a 1-D empty array on which `poly.transform` (line 133) raises.  The source
itself contains no validation and no raise statement; these are the only
error paths, both inside the library, and neither is a typed error of the
spec. -/
noncomputable def forecast_aqi (df : HistDF) (days_ahead : ℕ) :
    HistDF × Except String ForecastDF :=
  let df' : HistDF := { df with day_num := some (List.range df.pm2_5.length) }
  if df.pm2_5.length = 0 then
    (df', .error "ValueError: Found array with 0 samples")
  else if days_ahead = 0 then
    (df', .error "ValueError: Expected 2D array, got 1D array instead")
  else
    (df', .ok (forecastFrame df days_ahead))

/-- The confidence band drawn by the page (the `fill_between` calls at
lines 288-291 and 426-429): per forecast point `p`, the pair
`(0.85·p, 1.15·p)`.  It is computed from the forecast column at render
time by the charting code, not by `forecast_aqi`. -/
noncomputable def chart_band (fdf : ForecastDF) : List (ℝ × ℝ) :=
  fdf.pm2_5_forecast.map (fun v => (v * 0.85, v * 1.15))

/-- Sum of squared residuals of the degree-2 polynomial with coefficients
`β` on the series `y` against the indices `0..D-1`: the objective that
ordinary least squares minimizes (no regularization). -/
noncomputable def SSE (y : List ℝ) (β : ℝ × ℝ × ℝ) : ℝ :=
  ∑ i ∈ Finset.range y.length, (y.getD i 0 - evalPoly2 β (i : ℝ)) ^ 2

/-- The typed failures named by the spec (§4.2, §7). -/
inductive ForecastError where
  | insufficientData
  | invalidParameter
deriving DecidableEq

/-- Modelled from the spec: the failure behaviour the spec prescribes for
the forecaster — InsufficientDataError when the history has fewer than 3
points, InvalidParameterError when the horizon is below 1, otherwise the
forecast itself.  No such validation and no such error types exist
anywhere in src/app.py; this definition exists only to state claim C4's
demanded failure modes against the code's actual behaviour. -/
noncomputable def forecast_aqi_checked (df : HistDF) (days_ahead : ℕ) :
    Except ForecastError ForecastDF :=
  if df.pm2_5.length < 3 then .error .insufficientData
  else if days_ahead < 1 then .error .invalidParameter
  else .ok (forecastFrame df days_ahead)

/- ===== helper lemmas ===== -/

theorem getD_map_range (f : ℕ → ℝ) {i n : ℕ} (hi : i < n) :
    (((List.range n).map f).getD i 0) = f i := by
  rw [List.getD_eq_getElem?_getD, List.getElem?_map, List.getElem?_range hi]
  rfl

theorem getD_map_of_lt {α β : Type*} (f : α → β)
    (l : List α) {i : ℕ} (hi : i < l.length) (d : β) (d' : α) :
    (l.map f).getD i d = f (l.getD i d') := by
  rw [List.getD_eq_getElem?_getD, List.getElem?_map,
    List.getElem?_eq_getElem hi, List.getD_eq_getElem?_getD,
    List.getElem?_eq_getElem hi]
  rfl

theorem zipWith_map_same {α β γ δ : Type*} (h : β → γ → δ) (f : α → β)
    (g : α → γ) (l : List α) :
    List.zipWith h (l.map f) (l.map g) = l.map (fun x => h (f x) (g x)) := by
  induction l with
  | nil => rfl
  | cons a t ih => simp [ih]

/-- Normal form of the generated pm2.5 column: one value per index
`i = 0..days-1`, built from the linspace trend, the sinusoid and the
seeded draw at position `i`. -/
theorem pm25_eq_map (gauss : ℕ → ℕ → ℝ) (pyHash : String → ℤ)
    (clock : ℕ → ℝ) (city : String) (base : ℝ) (days : ℕ)
    (st : NPRandomState) :
    ((generate_historical_data gauss pyHash clock city base days st).1).pm2_5
      = (List.range days).map (fun i : ℕ =>
          max (base * 0.8 + (base * 1.2 - base * 0.8) * (i : ℝ) / ((days : ℝ) - 1)
               + 20 * Real.sin (4 * Real.pi * (i : ℝ) / ((days : ℝ) - 1))
               + gauss (seed_of_city pyHash city) i) 10) := by
  unfold generate_historical_data npNormal npSeed linspace
  simp only [zipWith_map_same, List.map_map, Function.comp_def, zero_add, sub_zero]

theorem pm25_length (gauss : ℕ → ℕ → ℝ) (pyHash : String → ℤ)
    (clock : ℕ → ℝ) (city : String) (base : ℝ) (days : ℕ)
    (st : NPRandomState) :
    ((generate_historical_data gauss pyHash clock city base days st).1).pm2_5.length
      = days := by
  rw [pm25_eq_map]
  simp

theorem pm25_getD (gauss : ℕ → ℕ → ℝ) (pyHash : String → ℤ)
    (clock : ℕ → ℝ) (city : String) (base : ℝ) (days : ℕ)
    (st : NPRandomState) {i : ℕ} (hi : i < days) :
    ((generate_historical_data gauss pyHash clock city base days st).1).pm2_5.getD i 0
      = max (base * 0.8 + (base * 1.2 - base * 0.8) * (i : ℝ) / ((days : ℝ) - 1)
             + 20 * Real.sin (4 * Real.pi * (i : ℝ) / ((days : ℝ) - 1))
             + gauss (seed_of_city pyHash city) i) 10 := by
  rw [pm25_eq_map, getD_map_range _ hi]

theorem hist_date_eq (gauss : ℕ → ℕ → ℝ) (pyHash : String → ℤ)
    (clock : ℕ → ℝ) (city : String) (base : ℝ) (days : ℕ)
    (st : NPRandomState) :
    ((generate_historical_data gauss pyHash clock city base days st).1).date
      = (List.range days).map (fun k => clock k - ((days - k : ℕ) : ℝ)) := rfl

theorem forecastFrame_date_eq (df : HistDF) (h : ℕ) :
    (forecastFrame df h).date
      = (List.range h).map (fun i : ℕ => dfMax df.date + ((i : ℝ) + 1)) := rfl

theorem forecastFrame_length (df : HistDF) (h : ℕ) :
    (forecastFrame df h).pm2_5_forecast.length = h := by
  unfold forecastFrame forecastRaw
  simp

theorem forecastFrame_value_getD (df : HistDF) (h : ℕ) {i : ℕ} (hi : i < h) :
    (forecastFrame df h).pm2_5_forecast.getD i 0
      = max (evalPoly2 (polyfit2 df.pm2_5) ((df.pm2_5.length + i : ℕ) : ℝ)) 10 := by
  unfold forecastFrame forecastRaw
  simp only [List.map_map, Function.comp_def]
  exact getD_map_range _ hi

theorem forecastFrame_floor (df : HistDF) (h : ℕ) {i : ℕ} (hi : i < h) :
    10 ≤ (forecastFrame df h).pm2_5_forecast.getD i 0 := by
  rw [forecastFrame_value_getD df h hi]
  exact le_max_right _ _

/-- The call raises on neither branch exactly when the history is nonempty
and the horizon positive, and then returns the constructed frame. -/
theorem forecast_ok (df : HistDF) (h : ℕ) (hdf : df.pm2_5.length ≠ 0)
    (hh : h ≠ 0) :
    (forecast_aqi df h).2 = Except.ok (forecastFrame df h) := by
  unfold forecast_aqi
  simp [hdf, hh]

/-- Whatever branch runs, the caller's frame leaves the call with the
day_num column assigned: line 122 precedes any raise. -/
theorem forecast_fst (df : HistDF) (h : ℕ) :
    (forecast_aqi df h).1
      = { df with day_num := some (List.range df.pm2_5.length) } := by
  unfold forecast_aqi
  split_ifs <;> rfl

/-- An ok result is always the constructed frame. -/
theorem forecast_ok_inv (df : HistDF) (h : ℕ) (fdf : ForecastDF)
    (hok : (forecast_aqi df h).2 = Except.ok fdf) :
    fdf = forecastFrame df h := by
  unfold forecast_aqi at hok
  split_ifs at hok <;> simp_all

theorem chain'_lt_map_range (f : ℕ → ℝ) (n : ℕ)
    (hf : ∀ i, i + 1 < n → f i < f (i + 1)) :
    List.Chain' (· < ·) ((List.range n).map f) := by
  rw [List.chain'_iff_get]
  intro i hi
  simp only [List.length_map, List.length_range] at hi
  rw [List.get_eq_getElem, List.get_eq_getElem, List.getElem_map, List.getElem_map,
    List.getElem_range, List.getElem_range]
  exact hf i (by omega)

theorem dfMax_map_range (f : ℕ → ℝ) (n : ℕ) (hn : 1 ≤ n)
    (hf : ∀ i j, i ≤ j → j < n → f i ≤ f j) :
    dfMax ((List.range n).map f) = f (n - 1) := by
  induction n with
  | zero => omega
  | succ m ih =>
    rcases Nat.eq_zero_or_pos m with hm | hm
    · subst hm
      rfl
    · obtain ⟨a, t, hat⟩ : ∃ a t, (List.range m).map f = a :: t := by
        cases h : (List.range m).map f with
        | nil =>
          exfalso
          have := congrArg List.length h
          simp at this
          omega
        | cons a t => exact ⟨a, t, rfl⟩
      have hprev : dfMax ((List.range m).map f) = f (m - 1) :=
        ih hm (fun i j hij hj => hf i j hij (by omega))
      rw [List.range_succ, List.map_append, hat]
      show dfMax (a :: (t ++ [f m])) = f (m + 1 - 1)
      simp only [dfMax, List.foldl_append, List.foldl_cons, List.foldl_nil]
      have hfold : t.foldl max a = f (m - 1) := by
        rw [← hprev, hat]
        rfl
      rw [hfold]
      simp only [Nat.add_sub_cancel]
      exact max_eq_right (hf (m - 1) m (by omega) (by omega))

/- ===== least-squares development ===== -/

/-- The Gram matrix of the expanded feature set [1, x, x²] over the sample
indices 0..D-1. -/
noncomputable def gramM (D : ℕ) : Matrix (Fin 3) (Fin 3) ℝ :=
  Matrix.of ![![S D 0, S D 1, S D 2], ![S D 1, S D 2, S D 3], ![S D 2, S D 3, S D 4]]

/-- The Gram quadratic form is the sum of the squared values of the
degree-2 polynomial at the sample indices. -/
theorem quadform_sum (D : ℕ) (u0 u1 u2 : ℝ) :
    u0 * (S D 0 * u0 + S D 1 * u1 + S D 2 * u2)
      + u1 * (S D 1 * u0 + S D 2 * u1 + S D 3 * u2)
      + u2 * (S D 2 * u0 + S D 3 * u1 + S D 4 * u2)
      = ∑ i ∈ Finset.range D, (u0 + u1 * (i : ℝ) + u2 * (i : ℝ) ^ 2) ^ 2 := by
  have key : ∀ i ∈ Finset.range D,
      (u0 + u1 * (i : ℝ) + u2 * (i : ℝ) ^ 2) ^ 2
        = u0 * u0 * (i : ℝ) ^ 0 + (2 * (u0 * u1)) * (i : ℝ) ^ 1
          + (2 * (u0 * u2) + u1 * u1) * (i : ℝ) ^ 2
          + (2 * (u1 * u2)) * (i : ℝ) ^ 3 + u2 * u2 * (i : ℝ) ^ 4 :=
    fun i _ => by ring
  rw [Finset.sum_congr rfl key]
  simp only [Finset.sum_add_distrib, ← Finset.mul_sum]
  unfold S
  ring

/-- With at least 3 samples the Gram matrix is positive definite: the
quadratic form is a sum of squares, and it vanishes only if the degree-2
polynomial vanishes at the three distinct indices 0, 1, 2, forcing all
coefficients to zero. -/
theorem gram_posdef (D : ℕ) (hD : 3 ≤ D) : (gramM D).PosDef := by
  constructor
  · unfold Matrix.IsHermitian
    ext i j
    fin_cases i <;> fin_cases j <;>
      simp [gramM, Matrix.conjTranspose_apply]
  · intro x hx
    have hq : Matrix.dotProduct (star x) ((gramM D).mulVec x)
        = ∑ i ∈ Finset.range D, (x 0 + x 1 * (i : ℝ) + x 2 * (i : ℝ) ^ 2) ^ 2 := by
      rw [← quadform_sum D (x 0) (x 1) (x 2)]
      simp [Matrix.dotProduct, Matrix.mulVec, Fin.sum_univ_three, gramM]
    have hnn : ∀ i ∈ Finset.range D,
        (0 : ℝ) ≤ (x 0 + x 1 * (i : ℝ) + x 2 * (i : ℝ) ^ 2) ^ 2 :=
      fun i _ => sq_nonneg _
    rw [hq]
    rcases lt_or_eq_of_le (Finset.sum_nonneg hnn) with hpos | hzero
    · exact hpos
    · exfalso
      apply hx
      have hz := (Finset.sum_eq_zero_iff_of_nonneg hnn).mp hzero.symm
      have e0 : x 0 = 0 := by
        have h := hz 0 (Finset.mem_range.mpr (by omega))
        have h' := sq_eq_zero_iff.mp h
        push_cast at h'
        linarith
      have e1 : x 0 + x 1 + x 2 = 0 := by
        have h := hz 1 (Finset.mem_range.mpr (by omega))
        have h' := sq_eq_zero_iff.mp h
        push_cast at h'
        linarith
      have e2 : x 0 + 2 * x 1 + 4 * x 2 = 0 := by
        have h := hz 2 (Finset.mem_range.mpr (by omega))
        have h' := sq_eq_zero_iff.mp h
        push_cast at h'
        norm_num at h'
        linarith
      funext i
      fin_cases i <;> simp only [Pi.zero_apply]
      · exact e0
      · have hx1 : x 1 = 0 := by linarith
        exact hx1
      · have hx2 : x 2 = 0 := by linarith
        exact hx2

theorem gram_det_eq (D : ℕ) :
    (gramM D).det
      = det3 (S D 0) (S D 1) (S D 2) (S D 1) (S D 2) (S D 3) (S D 2) (S D 3) (S D 4) := by
  have h00 : gramM D 0 0 = S D 0 := rfl
  have h01 : gramM D 0 1 = S D 1 := rfl
  have h02 : gramM D 0 2 = S D 2 := rfl
  have h10 : gramM D 1 0 = S D 1 := rfl
  have h11 : gramM D 1 1 = S D 2 := rfl
  have h12 : gramM D 1 2 = S D 3 := rfl
  have h20 : gramM D 2 0 = S D 2 := rfl
  have h21 : gramM D 2 1 = S D 3 := rfl
  have h22 : gramM D 2 2 = S D 4 := rfl
  rw [Matrix.det_fin_three, h00, h01, h02, h10, h11, h12, h20, h21, h22]
  simp only [det3]

/-- The Gram determinant of the degree-2 feature set is nonzero once there
are at least 3 samples. -/
theorem delta_ne_zero (D : ℕ) (hD : 3 ≤ D) :
    det3 (S D 0) (S D 1) (S D 2) (S D 1) (S D 2) (S D 3) (S D 2) (S D 3) (S D 4) ≠ 0 := by
  have h := (gram_posdef D hD).det_pos
  rw [gram_det_eq] at h
  exact h.ne'

/-- Cramer's rule: the quotient triple solves the 3×3 linear system. -/
theorem cramer3_solves (a b c d e f g h i p q r : ℝ)
    (hΔ : det3 a b c d e f g h i ≠ 0) :
    a * (det3 p b c q e f r h i / det3 a b c d e f g h i)
      + b * (det3 a p c d q f g r i / det3 a b c d e f g h i)
      + c * (det3 a b p d e q g h r / det3 a b c d e f g h i) = p
    ∧ d * (det3 p b c q e f r h i / det3 a b c d e f g h i)
      + e * (det3 a p c d q f g r i / det3 a b c d e f g h i)
      + f * (det3 a b p d e q g h r / det3 a b c d e f g h i) = q
    ∧ g * (det3 p b c q e f r h i / det3 a b c d e f g h i)
      + h * (det3 a p c d q f g r i / det3 a b c d e f g h i)
      + i * (det3 a b p d e q g h r / det3 a b c d e f g h i) = r := by
  refine ⟨?_, ?_, ?_⟩ <;>
    · field_simp
      simp only [det3]
      ring

/-- A 3×3 system with nonzero determinant has at most one solution. -/
theorem cramer3_unique (a b c d e f g h i x0 x1 x2 z0 z1 z2 : ℝ)
    (hΔ : det3 a b c d e f g h i ≠ 0)
    (e1 : a * x0 + b * x1 + c * x2 = a * z0 + b * z1 + c * z2)
    (e2 : d * x0 + e * x1 + f * x2 = d * z0 + e * z1 + f * z2)
    (e3 : g * x0 + h * x1 + i * x2 = g * z0 + h * z1 + i * z2) :
    x0 = z0 ∧ x1 = z1 ∧ x2 = z2 := by
  have k0 : (x0 - z0) * det3 a b c d e f g h i = 0 := by
    simp only [det3]
    linear_combination (e * i - f * h) * e1 - (b * i - c * h) * e2 + (b * f - c * e) * e3
  have k1 : (x1 - z1) * det3 a b c d e f g h i = 0 := by
    simp only [det3]
    linear_combination (-(d * i - f * g)) * e1 + (a * i - c * g) * e2 - (a * f - c * d) * e3
  have k2 : (x2 - z2) * det3 a b c d e f g h i = 0 := by
    simp only [det3]
    linear_combination (d * h - e * g) * e1 - (a * h - b * g) * e2 + (a * e - b * d) * e3
  refine ⟨?_, ?_, ?_⟩
  · rcases mul_eq_zero.mp k0 with h' | h'
    · exact sub_eq_zero.mp h'
    · exact absurd h' hΔ
  · rcases mul_eq_zero.mp k1 with h' | h'
    · exact sub_eq_zero.mp h'
    · exact absurd h' hΔ
  · rcases mul_eq_zero.mp k2 with h' | h'
    · exact sub_eq_zero.mp h'
    · exact absurd h' hΔ

/-- The fitted coefficients satisfy the least-squares normal equations. -/
theorem polyfit2_normal (y : List ℝ) (hD : 3 ≤ y.length) :
    S y.length 0 * (polyfit2 y).1 + S y.length 1 * (polyfit2 y).2.1
        + S y.length 2 * (polyfit2 y).2.2 = Tm y 0
    ∧ S y.length 1 * (polyfit2 y).1 + S y.length 2 * (polyfit2 y).2.1
        + S y.length 3 * (polyfit2 y).2.2 = Tm y 1
    ∧ S y.length 2 * (polyfit2 y).1 + S y.length 3 * (polyfit2 y).2.1
        + S y.length 4 * (polyfit2 y).2.2 = Tm y 2 := by
  have h := cramer3_solves (S y.length 0) (S y.length 1) (S y.length 2)
    (S y.length 1) (S y.length 2) (S y.length 3)
    (S y.length 2) (S y.length 3) (S y.length 4)
    (Tm y 0) (Tm y 1) (Tm y 2) (delta_ne_zero y.length hD)
  exact h

/-- The residual moments of a coefficient triple against the powers of the
index. -/
theorem resid_dot (y : List ℝ) (β : ℝ × ℝ × ℝ) (k : ℕ) :
    ∑ i ∈ Finset.range y.length,
        (y.getD i 0 - evalPoly2 β (i : ℝ)) * (i : ℝ) ^ k
      = Tm y k - (β.1 * S y.length k + β.2.1 * S y.length (k + 1)
          + β.2.2 * S y.length (k + 2)) := by
  have key : ∀ i ∈ Finset.range y.length,
      (y.getD i 0 - evalPoly2 β (i : ℝ)) * (i : ℝ) ^ k
        = (i : ℝ) ^ k * y.getD i 0
          - (β.1 * (i : ℝ) ^ k + β.2.1 * (i : ℝ) ^ (k + 1)
              + β.2.2 * (i : ℝ) ^ (k + 2)) := by
    intro i _
    simp only [evalPoly2, pow_succ]
    ring
  rw [Finset.sum_congr rfl key, Finset.sum_sub_distrib]
  unfold Tm S
  simp only [Finset.sum_add_distrib, ← Finset.mul_sum]

/-- Optimality of the fitted coefficients: the normal equations kill the
cross term of the sum-of-squares decomposition, and what remains is a sum
of squares. -/
theorem SSE_optimal (y : List ℝ) (hD : 3 ≤ y.length) (β : ℝ × ℝ × ℝ) :
    SSE y (polyfit2 y) ≤ SSE y β := by
  have hNE := polyfit2_normal y hD
  have hz0 : ∑ i ∈ Finset.range y.length,
      (y.getD i 0 - evalPoly2 (polyfit2 y) (i : ℝ)) * (i : ℝ) ^ 0 = 0 := by
    rw [resid_dot]
    linear_combination (-1 : ℝ) * hNE.1
  have hz1 : ∑ i ∈ Finset.range y.length,
      (y.getD i 0 - evalPoly2 (polyfit2 y) (i : ℝ)) * (i : ℝ) ^ 1 = 0 := by
    rw [resid_dot]
    linear_combination (-1 : ℝ) * hNE.2.1
  have hz2 : ∑ i ∈ Finset.range y.length,
      (y.getD i 0 - evalPoly2 (polyfit2 y) (i : ℝ)) * (i : ℝ) ^ 2 = 0 := by
    rw [resid_dot]
    linear_combination (-1 : ℝ) * hNE.2.2
  have key : ∀ i ∈ Finset.range y.length,
      (y.getD i 0 - evalPoly2 β (i : ℝ)) ^ 2
        = (y.getD i 0 - evalPoly2 (polyfit2 y) (i : ℝ)) ^ 2
          - (2 * (β.1 - (polyfit2 y).1))
              * ((y.getD i 0 - evalPoly2 (polyfit2 y) (i : ℝ)) * (i : ℝ) ^ 0)
          - (2 * (β.2.1 - (polyfit2 y).2.1))
              * ((y.getD i 0 - evalPoly2 (polyfit2 y) (i : ℝ)) * (i : ℝ) ^ 1)
          - (2 * (β.2.2 - (polyfit2 y).2.2))
              * ((y.getD i 0 - evalPoly2 (polyfit2 y) (i : ℝ)) * (i : ℝ) ^ 2)
          + ((β.1 - (polyfit2 y).1) + (β.2.1 - (polyfit2 y).2.1) * (i : ℝ)
              + (β.2.2 - (polyfit2 y).2.2) * (i : ℝ) ^ 2) ^ 2 := by
    intro i _
    simp only [evalPoly2]
    ring
  have hB : 0 ≤ ∑ i ∈ Finset.range y.length,
      ((β.1 - (polyfit2 y).1) + (β.2.1 - (polyfit2 y).2.1) * (i : ℝ)
        + (β.2.2 - (polyfit2 y).2.2) * (i : ℝ) ^ 2) ^ 2 :=
    Finset.sum_nonneg fun i _ => sq_nonneg _
  unfold SSE
  rw [Finset.sum_congr rfl key]
  simp only [Finset.sum_add_distrib, Finset.sum_sub_distrib, ← Finset.mul_sum]
  rw [hz0, hz1, hz2]
  simp only [mul_zero, sub_zero]
  linarith

/-- Moments of an exactly linear series. -/
theorem Tm_of_linear (y : List ℝ) (α γ : ℝ)
    (hy : ∀ i, i < y.length → y.getD i 0 = α + γ * (i : ℝ)) (k : ℕ) :
    Tm y k = α * S y.length k + γ * S y.length (k + 1) := by
  unfold Tm S
  rw [Finset.mul_sum, Finset.mul_sum, ← Finset.sum_add_distrib]
  refine Finset.sum_congr rfl fun i hi => ?_
  rw [hy i (Finset.mem_range.mp hi), pow_succ]
  ring

/- ===== claims ===== -/

/-- Claim C1 (evidence for the code bug): the generator seed is
`hash(city) % 2**32` where `hash` is CPython's per-process salted string
hash, so the synthesized series is a function of the process hash salt and
not of the city alone: two process instantiations of the hash that differ
on `"Delhi"` route the generator to different seeds and yield different
value series, against the claimed bit-identical series across runs. -/
theorem c1_seed_not_stable_across_processes :
    ((generate_historical_data (fun s _ => (s : ℝ)) (fun _ => 1) (fun _ => 0)
        "Delhi" 100 1 ⟨0, 0⟩).1).pm2_5
      ≠ ((generate_historical_data (fun s _ => (s : ℝ)) (fun _ => 2) (fun _ => 0)
        "Delhi" 100 1 ⟨0, 0⟩).1).pm2_5 := by
  intro heq
  have h0 := congrArg (fun l : List ℝ => l.getD 0 0) heq
  simp only at h0
  rw [pm25_getD _ _ _ _ _ _ _ (by norm_num),
    pm25_getD _ _ _ _ _ _ _ (by norm_num)] at h0
  norm_num [seed_of_city, show ((2 : ℤ)).toNat = 2 from rfl] at h0

/-- Claim C2: for a window of D ≥ 1 days the synthesized series has exactly
D points, and the value at index i (oldest first) is
trend(i) + seasonal(i) + noise(i) clamped below at 10, where the trend
ramps linearly from 0.8·base to 1.2·base across the D points (NumPy
linspace semantics), the seasonal part is 20·sin of a phase ramping from 0
to 4π across the D points, and noise(i) is the i-th draw, in point order,
of the generator seeded from the city hash. -/
theorem c2_synthesize_shape (gauss : ℕ → ℕ → ℝ) (pyHash : String → ℤ)
    (clock : ℕ → ℝ) (city : String) (base : ℝ) (days : ℕ)
    (st : NPRandomState) (hdays : 1 ≤ days) {i : ℕ} (hi : i < days) :
    ((generate_historical_data gauss pyHash clock city base days st).1).pm2_5.length = days
    ∧ ((generate_historical_data gauss pyHash clock city base days st).1).pm2_5.getD i 0
        = max (base * 0.8 + (base * 1.2 - base * 0.8) * (i : ℝ) / ((days : ℝ) - 1)
               + 20 * Real.sin (4 * Real.pi * (i : ℝ) / ((days : ℝ) - 1))
               + gauss (seed_of_city pyHash city) i) 10 :=
  ⟨pm25_length gauss pyHash clock city base days st,
   pm25_getD gauss pyHash clock city base days st hi⟩

theorem c2_synthesize_shape_witness :
    ((generate_historical_data (fun _ _ => 0) (fun _ => 0) (fun _ => 0)
        "Delhi" 100 3 ⟨0, 0⟩).1).pm2_5.length = 3
    ∧ ((generate_historical_data (fun _ _ => 0) (fun _ => 0) (fun _ => 0)
        "Delhi" 100 3 ⟨0, 0⟩).1).pm2_5.getD 1 0
        = max (100 * 0.8 + (100 * 1.2 - 100 * 0.8) * ((1 : ℕ) : ℝ) / (((3 : ℕ) : ℝ) - 1)
               + 20 * Real.sin (4 * Real.pi * ((1 : ℕ) : ℝ) / (((3 : ℕ) : ℝ) - 1))
               + (fun _ _ => (0 : ℝ)) (seed_of_city (fun _ => 0) "Delhi") 1) 10 :=
  c2_synthesize_shape (fun _ _ => 0) (fun _ => 0) (fun _ => 0) "Delhi" 100 3 ⟨0, 0⟩
    (by norm_num) (by norm_num)

/-- Claim C4 counterexample: the spec-demanded typed failures do not
occur.  On a 2-point history with horizon 1 the spec demands
InsufficientDataError, but the code succeeds and returns a 1-point
forecast frame (the library silently fits the underdetermined system); on
a 3-point history with horizon 0 the spec demands InvalidParameterError,
but the code fails with the untyped ValueError that scikit-learn's array
validation raises on the empty 1-D future_days array.  No raise and no
such error types exist in the code. -/
theorem c4_validation_counterexample :
    forecast_aqi_checked ⟨[0, 1], [50, 60], "Delhi", none⟩ 1
        = Except.error ForecastError.insufficientData
    ∧ (forecast_aqi ⟨[0, 1], [50, 60], "Delhi", none⟩ 1).2
        = Except.ok (forecastFrame ⟨[0, 1], [50, 60], "Delhi", none⟩ 1)
    ∧ (forecastFrame ⟨[0, 1], [50, 60], "Delhi", none⟩ 1).pm2_5_forecast.length = 1
    ∧ forecast_aqi_checked ⟨[0, 1, 2], [50, 60, 70], "Delhi", none⟩ 0
        = Except.error ForecastError.invalidParameter
    ∧ (forecast_aqi ⟨[0, 1, 2], [50, 60, 70], "Delhi", none⟩ 0).2
        = Except.error "ValueError: Expected 2D array, got 1D array instead" := by
  refine ⟨?_, forecast_ok _ _ (by norm_num) (by norm_num),
    forecastFrame_length _ _, ?_, ?_⟩
  · norm_num [forecast_aqi_checked]
  · norm_num [forecast_aqi_checked]
  · norm_num [forecast_aqi]

/-- Claim C4 amended: the forecaster performs no validation of its own and
never raises the typed errors of the spec.  A nonempty history with a
positive horizon — including the 1- and 2-point histories the spec wants
rejected — is accepted and fitted, returning a forecast frame with exactly
`horizon` points; an empty history, or a horizon of 0 (negatives behave
identically under range), fails inside scikit-learn's array validation
with an untyped ValueError, not with InsufficientDataError or
InvalidParameterError. -/
theorem c4_amended_no_validation (df : HistDF) (h : ℕ) :
    (df.pm2_5.length = 0 →
      (forecast_aqi df h).2 = Except.error "ValueError: Found array with 0 samples")
    ∧ (df.pm2_5.length ≠ 0 → h = 0 →
      (forecast_aqi df h).2
        = Except.error "ValueError: Expected 2D array, got 1D array instead")
    ∧ (df.pm2_5.length ≠ 0 → h ≠ 0 →
      (forecast_aqi df h).2 = Except.ok (forecastFrame df h)
      ∧ (forecastFrame df h).pm2_5_forecast.length = h) := by
  refine ⟨fun h0 => ?_, fun h1 h2 => ?_,
    fun h1 h2 => ⟨forecast_ok df h h1 h2, forecastFrame_length df h⟩⟩
  · unfold forecast_aqi
    simp [h0]
  · unfold forecast_aqi
    simp [h1, h2]

theorem c4_amended_no_validation_witness :
    (forecast_aqi ⟨[0, 1], [50, 60], "Delhi", none⟩ 0).2
        = Except.error "ValueError: Expected 2D array, got 1D array instead"
    ∧ (forecast_aqi ⟨[0, 1], [50, 60], "Delhi", none⟩ 1).2
        = Except.ok (forecastFrame ⟨[0, 1], [50, 60], "Delhi", none⟩ 1)
    ∧ (forecastFrame ⟨[0, 1], [50, 60], "Delhi", none⟩ 1).pm2_5_forecast.length = 1 :=
  ⟨(c4_amended_no_validation ⟨[0, 1], [50, 60], "Delhi", none⟩ 0).2.1 (by norm_num) rfl,
   ((c4_amended_no_validation ⟨[0, 1], [50, 60], "Delhi", none⟩ 1).2.2
      (by norm_num) (by norm_num)).1,
   ((c4_amended_no_validation ⟨[0, 1], [50, 60], "Delhi", none⟩ 1).2.2
      (by norm_num) (by norm_num)).2⟩

/-- Claim C5: every value of the synthesized series and every predicted
value of the forecast series is at least 10 — both series are built by a
final elementwise `np.maximum(·, 10)`. -/
theorem c5_floor_invariant :
    (∀ (gauss : ℕ → ℕ → ℝ) (pyHash : String → ℤ) (clock : ℕ → ℝ)
        (city : String) (base : ℝ) (days : ℕ) (st : NPRandomState) (i : ℕ),
        i < days →
        10 ≤ ((generate_historical_data gauss pyHash clock city base days st).1).pm2_5.getD i 0)
    ∧ (∀ (df : HistDF) (h i : ℕ) (fdf : ForecastDF),
        (forecast_aqi df h).2 = Except.ok fdf → i < h →
        10 ≤ fdf.pm2_5_forecast.getD i 0) := by
  constructor
  · intro gauss pyHash clock city base days st i hi
    rw [pm25_getD gauss pyHash clock city base days st hi]
    exact le_max_right _ _
  · intro df h i fdf hok hi
    rw [forecast_ok_inv df h fdf hok]
    exact forecastFrame_floor df h hi

theorem c5_floor_invariant_witness :
    10 ≤ ((generate_historical_data (fun _ _ => 0) (fun _ => 0) (fun _ => 0)
        "Delhi" 100 1 ⟨0, 0⟩).1).pm2_5.getD 0 0
    ∧ 10 ≤ (forecastFrame ⟨[0], [50], "Delhi", none⟩ 1).pm2_5_forecast.getD 0 0 :=
  ⟨c5_floor_invariant.1 (fun _ _ => 0) (fun _ => 0) (fun _ => 0) "Delhi" 100 1
      ⟨0, 0⟩ 0 (by norm_num),
   c5_floor_invariant.2 ⟨[0], [50], "Delhi", none⟩ 1 0
     (forecastFrame ⟨[0], [50], "Delhi", none⟩ 1)
     (forecast_ok _ _ (by norm_num) (by norm_num)) (by norm_num)⟩

/-- Claim C6 counterexample: the forecast frame returned by `forecast_aqi`
carries no band columns — its columns are exactly date, pm2_5_forecast and
city; the ±15% band is computed by the charting code from the forecast
column at render time, so it does not travel with the series. -/
theorem c6_band_not_in_forecast_frame :
    ((forecast_aqi ⟨[0], [50], "Delhi", none⟩ 1).2).map ForecastDF.columns
        = Except.ok ["date", "pm2_5_forecast", "city"]
    ∧ ¬ ("lower" ∈ ["date", "pm2_5_forecast", "city"]
         ∨ "upper" ∈ ["date", "pm2_5_forecast", "city"]) := by
  constructor
  · rw [forecast_ok _ _ (by norm_num) (by norm_num)]
    rfl
  · simp

/-- Claim C6 amended: the band pair that the page draws for forecast point
i is exactly (0.85·p, 1.15·p) for the predicted value p, and since p ≥ 10
the band brackets the prediction: 0.85·p ≤ p ≤ 1.15·p.  The band is
computed by the charting code (`chart_band`), not stored in the frame
returned by `forecast_aqi`. -/
theorem c6_amended_band (df : HistDF) (h : ℕ) (fdf : ForecastDF)
    (hok : (forecast_aqi df h).2 = Except.ok fdf) {i : ℕ} (hi : i < h) :
    (chart_band fdf).getD i (0, 0)
        = (fdf.pm2_5_forecast.getD i 0 * 0.85,
           fdf.pm2_5_forecast.getD i 0 * 1.15)
    ∧ fdf.pm2_5_forecast.getD i 0 * 0.85 ≤ fdf.pm2_5_forecast.getD i 0
    ∧ fdf.pm2_5_forecast.getD i 0 ≤ fdf.pm2_5_forecast.getD i 0 * 1.15 := by
  have hfd := forecast_ok_inv df h fdf hok
  subst hfd
  have hlen : i < (forecastFrame df h).pm2_5_forecast.length := by
    rw [forecastFrame_length]
    exact hi
  have hp : 0 ≤ (forecastFrame df h).pm2_5_forecast.getD i 0 := by
    have h10 := forecastFrame_floor df h hi
    linarith
  refine ⟨?_, by linarith, by linarith⟩
  unfold chart_band
  exact getD_map_of_lt _ _ hlen (0, 0) 0

theorem c6_amended_band_witness :
    (chart_band (forecastFrame ⟨[0], [50], "Delhi", none⟩ 1)).getD 0 (0, 0)
        = ((forecastFrame ⟨[0], [50], "Delhi", none⟩ 1).pm2_5_forecast.getD 0 0 * 0.85,
           (forecastFrame ⟨[0], [50], "Delhi", none⟩ 1).pm2_5_forecast.getD 0 0 * 1.15)
    ∧ (forecastFrame ⟨[0], [50], "Delhi", none⟩ 1).pm2_5_forecast.getD 0 0 * 0.85
        ≤ (forecastFrame ⟨[0], [50], "Delhi", none⟩ 1).pm2_5_forecast.getD 0 0
    ∧ (forecastFrame ⟨[0], [50], "Delhi", none⟩ 1).pm2_5_forecast.getD 0 0
        ≤ (forecastFrame ⟨[0], [50], "Delhi", none⟩ 1).pm2_5_forecast.getD 0 0 * 1.15 :=
  c6_amended_band ⟨[0], [50], "Delhi", none⟩ 1
    (forecastFrame ⟨[0], [50], "Delhi", none⟩ 1)
    (forecast_ok _ _ (by norm_num) (by norm_num)) (by norm_num)

/-- Claim C9 counterexample: `forecast_aqi` is not a pure transform of its
input — line 122 assigns a `day_num` column into the caller's historical
frame, so after the call the frame has an extra column and differs from
the frame that was passed in. -/
theorem c9_input_mutated_counterexample :
    ((forecast_aqi ⟨[0], [50], "Delhi", none⟩ 1).1).columns
        = ["date", "pm2_5", "city", "day_num"]
    ∧ (⟨[0], [50], "Delhi", none⟩ : HistDF).columns = ["date", "pm2_5", "city"]
    ∧ (forecast_aqi ⟨[0], [50], "Delhi", none⟩ 1).1
        ≠ (⟨[0], [50], "Delhi", none⟩ : HistDF) := by
  refine ⟨?_, rfl, ?_⟩
  · rw [forecast_fst]
    rfl
  · intro heq
    have := congrArg HistDF.day_num heq
    rw [forecast_fst] at this
    simp at this

/-- Claim C9 amended: the only mutation `forecast_aqi` makes to the
caller's frame is adding the `day_num` column 0..D-1; the date, pm2_5 and
city contents are unchanged. -/
theorem c9_amended_frame_effect (df : HistDF) (h : ℕ) :
    (forecast_aqi df h).1.date = df.date
    ∧ (forecast_aqi df h).1.pm2_5 = df.pm2_5
    ∧ (forecast_aqi df h).1.city = df.city
    ∧ (forecast_aqi df h).1.day_num = some (List.range df.pm2_5.length) := by
  rw [forecast_fst]
  exact ⟨rfl, rfl, rfl, rfl⟩

/-- Claim C10 counterexample: `generate_historical_data` reseeds and draws
from the process-global NumPy generator, so the global state after a call
differs from the state before it — the call does leave process-global
mutable state modified. -/
theorem c10_global_rng_mutated :
    (generate_historical_data (fun _ _ => 0) (fun _ => 0) (fun _ => 0)
        "Delhi" 100 1 ⟨7, 7⟩).2 ≠ (⟨7, 7⟩ : NPRandomState) := by
  intro heq
  have := congrArg NPRandomState.draws heq
  simp [generate_historical_data, npNormal, npSeed] at this

/-- Claim C10 amended: the call mutates the global generator — it leaves it
reseeded from the city hash and advanced by `days` draws — but because it
reseeds at entry, the frame it returns does not depend on the generator
state at entry, so sequential (non-interleaved) invocations for different
cities cannot affect each other's results. -/
theorem c10_amended_global_rng (gauss : ℕ → ℕ → ℝ) (pyHash : String → ℤ)
    (clock : ℕ → ℝ) (city : String) (base : ℝ) (days : ℕ)
    (st st' : NPRandomState) :
    (generate_historical_data gauss pyHash clock city base days st).1
      = (generate_historical_data gauss pyHash clock city base days st').1
    ∧ (generate_historical_data gauss pyHash clock city base days st).2
      = ⟨seed_of_city pyHash city, days⟩ := by
  constructor
  · rfl
  · simp [generate_historical_data, npNormal, npSeed]

/-- Claim C7: historical dates strictly increase and the last one is one
day before the generation-time clock (today excluded); the forecast dates
are consecutive calendar days starting exactly one day after the last
historical date, hence strictly increasing with no gaps. -/
theorem c7_dates (gauss : ℕ → ℕ → ℝ) (pyHash : String → ℤ) (clock : ℕ → ℝ)
    (city : String) (base : ℝ) (days horizon : ℕ) (st : NPRandomState)
    (hclock : Monotone clock) (hdays : 1 ≤ days) (hh : 1 ≤ horizon) :
    List.Chain' (· < ·)
      ((generate_historical_data gauss pyHash clock city base days st).1).date
    ∧ ((generate_historical_data gauss pyHash clock city base days st).1).date.getD (days - 1) 0
        = clock (days - 1) - 1
    ∧ ((forecast_aqi (generate_historical_data gauss pyHash clock city base days st).1 horizon).2).map ForecastDF.date
        = Except.ok ((List.range horizon).map
            (fun i : ℕ => (clock (days - 1) - 1) + ((i : ℝ) + 1)))
    ∧ List.Chain' (· < ·)
        ((List.range horizon).map
          (fun i : ℕ => (clock (days - 1) - 1) + ((i : ℝ) + 1))) := by
  have hlast : ∀ {k : ℕ}, k = days - 1 →
      clock k - ((days - k : ℕ) : ℝ) = clock (days - 1) - 1 := by
    intro k hk
    subst hk
    have h1 : days - (days - 1) = 1 := by omega
    rw [h1, Nat.cast_one]
  have hdm : dfMax ((generate_historical_data gauss pyHash clock city base days st).1).date
      = clock (days - 1) - 1 := by
    rw [hist_date_eq, dfMax_map_range _ days hdays]
    · exact hlast rfl
    · intro i j hij hj
      have hci := hclock hij
      rw [Nat.cast_sub (by omega : j ≤ days), Nat.cast_sub (by omega : i ≤ days)]
      have : (i : ℝ) ≤ (j : ℝ) := by exact_mod_cast hij
      linarith
  refine ⟨?_, ?_, ?_, ?_⟩
  · rw [hist_date_eq]
    apply chain'_lt_map_range
    intro i hi1
    have hci := hclock (Nat.le_succ i)
    rw [Nat.cast_sub (by omega : i ≤ days), Nat.cast_sub (by omega : i + 1 ≤ days)]
    push_cast
    linarith
  · rw [hist_date_eq, getD_map_range _ (by omega : days - 1 < days)]
    exact hlast rfl
  · rw [forecast_ok _ horizon (by rw [pm25_length]; omega) (by omega)]
    show Except.ok ((forecastFrame _ horizon).date) = _
    rw [forecastFrame_date_eq, hdm]
  · apply chain'_lt_map_range
    intro i hi1
    push_cast
    linarith

/-- Claim C3: with a history of at least 3 points, the forecaster computes
the exact ordinary-least-squares degree-2 polynomial fit of value against
the chronological index 0..D-1 over the feature set [1, x, x²] — the
fitted coefficients minimize the sum of squared residuals over every
coefficient triple, with no regularization — and the i-th raw (pre-floor)
prediction equals that fitted polynomial evaluated at index D + i. -/
theorem c3_ols_fit_and_extrapolation (y : List ℝ) (β : ℝ × ℝ × ℝ) (h i : ℕ)
    (hD : 3 ≤ y.length) (hi : i < h) :
    SSE y (polyfit2 y) ≤ SSE y β
    ∧ (forecastRaw y h).getD i 0
        = evalPoly2 (polyfit2 y) ((y.length : ℝ) + (i : ℝ)) := by
  refine ⟨SSE_optimal y hD β, ?_⟩
  unfold forecastRaw
  rw [getD_map_range _ hi]
  push_cast
  rfl

theorem c3_ols_fit_and_extrapolation_witness :
    SSE [(1 : ℝ), 1, 1] (polyfit2 [(1 : ℝ), 1, 1]) ≤ SSE [(1 : ℝ), 1, 1] (0, 0, 0)
    ∧ (forecastRaw [(1 : ℝ), 1, 1] 1).getD 0 0
        = evalPoly2 (polyfit2 [(1 : ℝ), 1, 1])
            ((([(1 : ℝ), 1, 1].length : ℕ) : ℝ) + ((0 : ℕ) : ℝ)) :=
  c3_ols_fit_and_extrapolation [(1 : ℝ), 1, 1] (0, 0, 0) 1 0 (by norm_num) (by norm_num)

/-- Claim C8: a history lying exactly on the line α + γ·index is forecast,
before the floor, as the continuation of that same line at the
extrapolated indices — the degree-2 least-squares fit subsumes a degree-1
relationship exactly. -/
theorem c8_linear_history_linear_forecast (y : List ℝ) (α γ : ℝ)
    (hlin : ∀ i, i < y.length → y.getD i 0 = α + γ * (i : ℝ))
    (hD : 3 ≤ y.length) (h j : ℕ) (hj : j < h) :
    (forecastRaw y h).getD j 0 = α + γ * ((y.length : ℝ) + (j : ℝ)) := by
  have hΔ := delta_ne_zero y.length hD
  have hNE := polyfit2_normal y hD
  have hT0 := Tm_of_linear y α γ hlin 0
  have hT1 := Tm_of_linear y α γ hlin 1
  have hT2 := Tm_of_linear y α γ hlin 2
  have key := cramer3_unique (S y.length 0) (S y.length 1) (S y.length 2)
    (S y.length 1) (S y.length 2) (S y.length 3)
    (S y.length 2) (S y.length 3) (S y.length 4)
    (polyfit2 y).1 (polyfit2 y).2.1 (polyfit2 y).2.2 α γ 0 hΔ
    (by linear_combination hNE.1 + hT0)
    (by linear_combination hNE.2.1 + hT1)
    (by linear_combination hNE.2.2 + hT2)
  unfold forecastRaw
  rw [getD_map_range _ hj]
  unfold evalPoly2
  rw [key.1, key.2.1, key.2.2]
  push_cast
  ring

theorem c8_linear_history_linear_forecast_witness :
    (forecastRaw [(0 : ℝ), 1, 2] 5).getD 0 0
      = 0 + 1 * ((([(0 : ℝ), 1, 2].length : ℕ) : ℝ) + ((0 : ℕ) : ℝ)) :=
  c8_linear_history_linear_forecast [(0 : ℝ), 1, 2] 0 1
    (by
      intro i hi
      simp only [List.length_cons, List.length_nil] at hi
      interval_cases i <;> norm_num)
    (by norm_num) 5 0 (by norm_num)

theorem c7_dates_witness :
    List.Chain' (· < ·)
      ((generate_historical_data (fun _ _ => 0) (fun _ => 0) (fun _ => 0)
          "Delhi" 100 1 ⟨0, 0⟩).1).date
    ∧ ((generate_historical_data (fun _ _ => 0) (fun _ => 0) (fun _ => 0)
          "Delhi" 100 1 ⟨0, 0⟩).1).date.getD (1 - 1) 0
        = (fun _ : ℕ => (0 : ℝ)) (1 - 1) - 1
    ∧ ((forecast_aqi (generate_historical_data (fun _ _ => 0) (fun _ => 0) (fun _ => 0)
          "Delhi" 100 1 ⟨0, 0⟩).1 1).2).map ForecastDF.date
        = Except.ok ((List.range 1).map
            (fun i : ℕ => ((fun _ : ℕ => (0 : ℝ)) (1 - 1) - 1) + ((i : ℝ) + 1)))
    ∧ List.Chain' (· < ·)
        ((List.range 1).map
          (fun i : ℕ => ((fun _ : ℕ => (0 : ℝ)) (1 - 1) - 1) + ((i : ℝ) + 1))) :=
  c7_dates (fun _ _ => 0) (fun _ => 0) (fun _ => 0) "Delhi" 100 1 1 ⟨0, 0⟩
    monotone_const (by norm_num) (by norm_num)

end AQI
